/-
Verification of the speechlab-mcp integration layer.

The definitions below are a shallow embedding of the Python source files
`speechlab_mcp/client.py`, `speechlab_mcp/server.py` and
`speechlab_mcp/utils.py`.  Remote HTTP responses are inputs of the embedded
functions (a fetch either yields a parsed payload or raises a transport
error, modelled as `Except Unit`); file-system facts are an explicit record
of predicates; wall-clock timestamps are string parameters.
-/
import Mathlib

namespace SpeechlabMcp

/-! ## Data model for status payloads

`SpeechlabClient.get_project_status` returns the parsed JSON of
`GET /projects/{id}?expand=true`.  The polling loop only reads
`project_data.get("job", {}).get("status", "UNKNOWN")`; the download
resolution reads the `translations` list.  A missing `"translations"`,
`"dub"` or `"medias"` key and an empty list are indistinguishable to the
code (both sides of `dict.get(key, [])`), so those fields are plain lists;
`"job"` and the per-media string keys keep their optionality. -/

/-- One entry of a dub's `medias` list (`media.get("operationType")`,
`media.get("presignedURL")`). -/
structure Media where
  operationType : Option String
  presignedURL : Option String
  deriving Repr, DecidableEq

/-- One entry of a translation's `dub` list (`dub.get("medias", [])`). -/
structure Dub where
  medias : List Media
  deriving Repr, DecidableEq

/-- One entry of the payload's `translations` list
(`translation.get("dub", [])`). -/
structure Translation where
  dub : List Dub
  deriving Repr, DecidableEq

/-- The `"job"` sub-object of a project payload (`job.get("status", ...)`). -/
structure JobData where
  status : Option String
  deriving Repr, DecidableEq

/-- A parsed project payload, restricted to the fields the embedded code
reads: `project_data.get("job", {})` and
`project_data.get("translations", [])`. -/
structure ProjectData where
  job : Option JobData
  translations : List Translation
  deriving Repr, DecidableEq

/-- `project_data.get("job", {}).get("status", "UNKNOWN")`
(client.py line 372): the `{}` default makes a missing `"job"` object and a
`"job"` object missing `"status"` both yield `"UNKNOWN"`. -/
def pdStatus (pd : ProjectData) : String :=
  ((pd.job.getD ⟨none⟩).status).getD "UNKNOWN"

/-! ## The completion poller (`SpeechlabClient.wait_for_completion`)

The loop body at client.py lines 369-404, per attempt `i`:
fetch the status (may raise), derive the status string, invoke the
callback if present (may raise), then `return True` on `"COMPLETE"`,
`return False` on `"FAILED"`, otherwise sleep and continue; any exception
of the body is caught at line 397 and the loop continues.  After the loop,
`return False`.

A run is determined by the per-attempt fetch results
`fetch : Nat → Except Unit ProjectData` (`.error` = the fetch raised) and
an optional callback modelled by whether it raises at a given attempt and
payload.  The embedding returns the boolean result together with the
number of status fetches performed. -/

/-- `if callback: callback(attempt, project_data)` — `none` models no
callback; for `some f`, `f i pd = true` models the callback raising. -/
def cbRaises : Option (Nat → ProjectData → Bool) → Nat → ProjectData → Bool
  | none, _, _ => false
  | some f, i, pd => f i pd

/-- Outcome of the `try` body for attempt `i`: `some true` = `return True`
(status `"COMPLETE"`), `some false` = `return False` (status `"FAILED"`),
`none` = fall through to the next attempt (non-terminal status, fetch
exception, or callback exception — all reach line 397's handler or the
sleep). -/
def attemptStep (fetch : Nat → Except Unit ProjectData)
    (cb : Option (Nat → ProjectData → Bool)) (i : Nat) : Option Bool :=
  match fetch i with
  | .error _ => none
  | .ok pd =>
    if cbRaises cb i pd then none
    else if pdStatus pd = "COMPLETE" then some true
    else if pdStatus pd = "FAILED" then some false
    else none

/-- The `for attempt in range(max_attempts)` loop from attempt `i` with
`fuel` attempts remaining; returns the boolean result and the number of
status fetches performed from this point on.  Exhausting the range returns
`False` (client.py line 404). -/
def pollAux (fetch : Nat → Except Unit ProjectData)
    (cb : Option (Nat → ProjectData → Bool)) : Nat → Nat → Bool × Nat
  | _, 0 => (false, 0)
  | i, fuel + 1 =>
    match attemptStep fetch cb i with
    | some b => (b, 1)
    | none =>
      let p := pollAux fetch cb (i + 1) fuel
      (p.1, p.2 + 1)

/-- `SpeechlabClient.wait_for_completion`: run the loop for attempts
`0, …, maxAttempts - 1`. -/
def waitForCompletion (maxAttempts : Nat)
    (fetch : Nat → Except Unit ProjectData)
    (cb : Option (Nat → ProjectData → Bool)) : Bool × Nat :=
  pollAux fetch cb 0 maxAttempts

/-- The status string attempt `i` observes, when its fetch succeeds. -/
def statusAt (fetch : Nat → Except Unit ProjectData) (i : Nat) :
    Option String :=
  match fetch i with
  | .ok pd => some (pdStatus pd)
  | .error _ => none

/-- A payload whose derived status is `"PROCESSING"` (non-terminal). -/
def processingPayload : ProjectData :=
  { job := some ⟨some "PROCESSING"⟩, translations := [] }

/-- A payload whose derived status is `"COMPLETE"`. -/
def completePayload : ProjectData :=
  { job := some ⟨some "COMPLETE"⟩, translations := [] }

/-- A payload whose derived status is `"FAILED"`. -/
def failedPayload : ProjectData :=
  { job := some ⟨some "FAILED"⟩, translations := [] }

/-! ### Concrete status sequences used for witnesses and counterexamples -/

/-- First attempt observes `"PROCESSING"`, every later one `"COMPLETE"`. -/
def fetchProcThenComplete : Nat → Except Unit ProjectData :=
  fun n => if n = 0 then .ok processingPayload else .ok completePayload

/-- Every attempt observes `"PROCESSING"`. -/
def fetchAlwaysProcessing : Nat → Except Unit ProjectData :=
  fun _ => .ok processingPayload

/-- Every attempt observes `"FAILED"`. -/
def fetchAlwaysFailed : Nat → Except Unit ProjectData :=
  fun _ => .ok failedPayload

/-- Every attempt observes `"COMPLETE"`. -/
def fetchAlwaysComplete : Nat → Except Unit ProjectData :=
  fun _ => .ok completePayload

/-- The first fetch raises a transport error, every later one observes
`"COMPLETE"`. -/
def fetchErrThenComplete : Nat → Except Unit ProjectData :=
  fun n => if n = 0 then .error () else .ok completePayload

/-- A callback that raises on every invocation. -/
def cbAlwaysRaises : Nat → ProjectData → Bool := fun _ _ => true

/-- A callback that raises exactly on attempt 0. -/
def cbRaisesAtZero : Nat → ProjectData → Bool := fun i _ => i == 0

/-- A payload with no `"job"` object at all. -/
def malformedPayload : ProjectData := { job := none, translations := [] }

/-- Every attempt observes the payload without a `"job"` object. -/
def fetchMalformed : Nat → Except Unit ProjectData :=
  fun _ => .ok malformedPayload

/-! ## Project creation (`server.create_project_and_dub`,
`SpeechlabClient.create_project`)

Both code paths build the JSON body of
`POST /projects/createProjectAndDub` the same way (server.py lines 93-114,
client.py lines 98-117): the requested target language is rewritten from
`"es"` to `"es_la"` and used for both `targetLanguage` and `dubAccent`.
The `thirdPartyID` timestamp is a parameter. -/

/-- The JSON body sent to `POST /projects/createProjectAndDub`. -/
structure CreateProjectRequest where
  name : String
  sourceLanguage : String
  targetLanguage : String
  dubAccent : String
  voiceMatchingMode : String
  unitType : String
  thirdPartyID : String
  deriving Repr, DecidableEq

/-- `api_target_language = target_language; if target_language == "es":
api_target_language = "es_la"` (server.py lines 94-96, client.py lines
99-101). -/
def apiTargetLanguage (target_language : String) : String :=
  if target_language = "es" then "es_la" else target_language

/-- The request body built by `create_project_and_dub`
(server.py lines 103-114). -/
def server_create_request (name source_language target_language ts : String) :
    CreateProjectRequest :=
  { name := name
    sourceLanguage := source_language
    targetLanguage := apiTargetLanguage target_language
    dubAccent := apiTargetLanguage target_language
    voiceMatchingMode := "source"
    unitType := "whiteGlove"
    thirdPartyID := "mcp_" ++ ts }

/-- The request body built by `SpeechlabClient.create_project`
(client.py lines 106-117). -/
def client_create_request (name source_language target_language ts : String) :
    CreateProjectRequest :=
  { name := name
    sourceLanguage := source_language
    targetLanguage := apiTargetLanguage target_language
    dubAccent := apiTargetLanguage target_language
    voiceMatchingMode := "source"
    unitType := "whiteGlove"
    thirdPartyID := "client_" ++ ts }

/-- The fields of the remote's create-project response the code reads back. -/
structure CreateProjectResponse where
  id : String
  name : String
  sourceLanguage : String
  targetLanguage : String
  deriving Repr, DecidableEq

/-- server.py line 143: the `McpDubProject` returned to the caller sets
`target_language=project_data["targetLanguage"]` from the response, and
line 150 echoes that field into the result text. -/
def server_reported_target_language (resp : CreateProjectResponse) : String :=
  resp.targetLanguage

/-- client.py line 121: `create_project` returns the parsed response
unchanged, so the target language the caller sees is the response's
`targetLanguage` field. -/
def client_reported_target_language (resp : CreateProjectResponse) : String :=
  resp.targetLanguage

/-- A remote that echoes the request fields into its response (the
concrete response used to refute the "reported back" half of C5). -/
def echoCreateResponse (req : CreateProjectRequest) : CreateProjectResponse :=
  { id := "proj1"
    name := req.name
    sourceLanguage := req.sourceLanguage
    targetLanguage := req.targetLanguage }

/-! ## Download resolution (`server.download_dubbing_result`,
`SpeechlabClient.download_result`)

The expanded payload's `translations → dub → medias` lists are walked
with `break`-on-first-hit loops; a media qualifies when
`media.get("operationType") == "OUTPUT" and media.get("presignedURL")`
(truthiness: an empty-string URL does not qualify).  The fallback
`GET /projects/{id}/download` response is modelled by the optional value
of its `"url"` key (`none` = key absent). -/

/-- Python truthiness of `media.get("presignedURL")`. -/
def pyTruthyStr : Option String → Bool
  | none => false
  | some s => !(s == "")

/-- The `presignedURL` that one media entry contributes, if it qualifies
(server.py lines 493-496, client.py lines 274-277). -/
def mediaOutputUrl (m : Media) : Option String :=
  if m.operationType = some "OUTPUT" ∧ pyTruthyStr m.presignedURL = true then
    m.presignedURL
  else none

/-- First qualifying media of one dub entry (innermost loop + break). -/
def dubOutputUrl (d : Dub) : Option String :=
  d.medias.findSome? mediaOutputUrl

/-- First qualifying media of one translation (middle loop + break). -/
def translationOutputUrl (t : Translation) : Option String :=
  t.dub.findSome? dubOutputUrl

/-- First qualifying media of the whole payload (outer loop + break). -/
def findOutputUrl (ts : List Translation) : Option String :=
  ts.findSome? translationOutputUrl

/-- `download_dubbing_result`'s URL resolution (server.py lines 479-513):
error when the payload has no translations, otherwise the structured walk,
otherwise the fallback endpoint's `"url"` key, otherwise a descriptive
error. -/
def server_download_resolution (p : ProjectData) (endpointUrl : Option String) :
    Except String String :=
  if p.translations = [] then
    .error "No translations found in the project."
  else
    match findOutputUrl p.translations with
    | some url => .ok url
    | none =>
      match endpointUrl with
      | some u => .ok u
      | none => .error "No download URL available. The dubbing may not be complete."

/-- `SpeechlabClient.download_result`'s URL resolution (client.py lines
263-294): the structured walk, otherwise the fallback endpoint's `"url"`
key, otherwise a descriptive error — with no empty-translations guard. -/
def client_download_resolution (p : ProjectData) (endpointUrl : Option String) :
    Except String String :=
  match findOutputUrl p.translations with
  | some url => .ok url
  | none =>
    match endpointUrl with
    | some u => .ok u
    | none => .error "No download URL available. The dubbing may not be complete."

/-- An OUTPUT media carrying a presigned URL. -/
def outputMedia : Media :=
  { operationType := some "OUTPUT", presignedURL := some "https://signed" }

/-- A payload with two translations where only the second one's dub entry
has a qualifying OUTPUT media. -/
def samplePayloadLater : ProjectData :=
  { job := none
    translations := [{ dub := [] }, { dub := [{ medias := [outputMedia] }] }] }

/-! ## File utilities (`speechlab_mcp/utils.py`)

Paths are POSIX strings.  `pathlib` accessors (`name`, `suffix`,
`parent`) are embedded from CPython's `PurePosixPath` semantics; the file
system is a record of the predicates the code consults (`Path.exists`,
`Path.is_file`, `os.access(-, os.W_OK)`).  Errors are the
`SpeechlabMcpError` raised by `make_error`, modelled as `Except.error`. -/

/-- Python string slicing `s[:n]` (by characters). -/
def py_take (s : String) (n : Nat) : String := String.mk (s.toList.take n)

/-- Python string slicing `s[n:]` (by characters). -/
def py_drop (s : String) (n : Nat) : String := String.mk (s.toList.drop n)

/-- Python `s.replace(' ', '_')`: the pattern is a single character, so
the replacement is a character-wise map. -/
def py_replace_space (s : String) : String :=
  String.mk (s.toList.map (fun c => if c = ' ' then '_' else c))

/-- Python `s.lower()` (the extensions involved are ASCII). -/
def py_lower (s : String) : String := String.mk (s.toList.map Char.toLower)

/-- Python `s.startswith(pre)`. -/
def py_startsWith (s pre : String) : Bool := pre.toList.isPrefixOf s.toList

/-- Python `str.split` on a single separator character. -/
def py_split (c : Char) : List Char → List (List Char)
  | [] => [[]]
  | x :: xs =>
    match py_split c xs with
    | [] => [[]]
    | g :: gs => if x = c then [] :: g :: gs else (x :: g) :: gs

/-- The components of a POSIX path string: split at `/`. -/
def py_splitSlash (s : String) : List String :=
  (py_split '/' s.toList).map String.mk

/-- `"/".join(parts)`. -/
def joinSlash : List String → String
  | [] => ""
  | [x] => x
  | x :: y :: xs => x ++ "/" ++ joinSlash (y :: xs)

/-- `os.path.isabs` on POSIX: the path starts with a slash. -/
def os_path_isabs (s : String) : Bool := py_startsWith s "/"

/-- `pathlib.PurePosixPath(s).name`: the final non-empty path component
(empty for the root). -/
def path_name (s : String) : String :=
  ((((py_splitSlash s).filter (fun c => c != "")).getLast?).getD "")

/-- Index of the last occurrence of `c`, CPython's `str.rfind`. -/
def lastIdxOf (cs : List Char) (c : Char) : Option Nat :=
  match cs with
  | [] => none
  | x :: xs =>
    match lastIdxOf xs c with
    | some i => some (i + 1)
    | none => if x = c then some 0 else none

/-- `pathlib.PurePosixPath(s).suffix`: `name[i:]` for `i = name.rfind('.')`
when `0 < i < len(name) - 1`, else the empty string. -/
def path_suffix (s : String) : String :=
  let name := path_name s
  match lastIdxOf name.toList '.' with
  | none => ""
  | some i =>
    if 0 < i ∧ i < name.toList.length - 1 then py_drop name i else ""

/-- `pathlib.PurePosixPath(s).parent`: drop the final component (the root
is its own parent; a single relative component's parent is `"."`). -/
def path_parent (s : String) : String :=
  let comps := (py_splitSlash s).filter (fun c => c != "")
  if os_path_isabs s then
    if comps.length ≤ 1 then "/" else "/" ++ joinSlash comps.dropLast
  else
    if comps.length ≤ 1 then "." else joinSlash comps.dropLast

/-- `os.path.expanduser` on POSIX, for the plain `~` form (the `~user`
form is not used by this code base). -/
def os_expanduser (home : String) (s : String) : String :=
  if s = "~" then home
  else if py_startsWith s "~/" then home ++ py_drop s 1
  else s

/-- `pathlib`'s `/` operator: an absolute right operand replaces the left. -/
def path_join (a b : String) : String :=
  if os_path_isabs b then b else a ++ "/" ++ b

/-- The file-system facts `utils.py` consults.  `accessW` is
`os.access(path, os.W_OK)`; real `os.access` returns `False` on a path
that does not exist, which theorems take as an explicit hypothesis. -/
structure FileSystem where
  pathExists : String → Bool
  isFile : String → Bool
  accessW : String → Bool

/-- `is_file_writeable` (utils.py lines 23-27): an existing path is
checked directly, a non-existing one via its parent directory. -/
def is_file_writeable (fs : FileSystem) (path : String) : Bool :=
  if fs.pathExists path then fs.accessW path else fs.accessW (path_parent path)

/-- The file-name half of `make_output_file` (utils.py lines 30-36):
`id = text if full_id else text[:5]`, then
`f"{tool}_{id.replace(' ', '_')}_{timestamp}.{extension}"`. -/
def output_file_name (tool text : String) (extension ts : String)
    (full_id : Bool) : String :=
  let id := if full_id then text else py_take text 5
  tool ++ "_" ++ py_replace_space id ++ "_" ++ ts ++ "." ++ extension

/-- `make_output_file`: the generated name under `output_path`. -/
def make_output_file (tool text : String) (output_path : String)
    (extension ts : String) (full_id : Bool) : String :=
  path_join output_path (output_file_name tool text extension ts full_id)

/-- The resolution of `output_path` inside `make_output_path` (utils.py
lines 42-48): default `Path.home() / "Desktop"`; a relative directory is
joined under the expanded base path when one is configured; otherwise the
directory is expanded as given. -/
def resolve_output_path (home : String) (output_directory : Option String)
    (base_path : Option String) : String :=
  match output_directory with
  | none => home ++ "/Desktop"
  | some d =>
    match base_path with
    | some bp =>
      if os_path_isabs d then os_expanduser home d
      else path_join (os_expanduser home bp) d
    | none => os_expanduser home d

/-- `make_output_path` (utils.py lines 39-52): resolve the directory,
raise if `is_file_writeable` denies it, otherwise run
`output_path.mkdir(parents=True, exist_ok=True)` and return the path —
the recursive `mkdir` executes only in the `.ok` branch, after the check. -/
def make_output_path (fs : FileSystem) (home : String)
    (output_directory base_path : Option String) : Except String String :=
  if is_file_writeable fs (resolve_output_path home output_directory base_path) then
    Except.ok (resolve_output_path home output_directory base_path)
  else Except.error "Directory is not writeable"

/-- The extension allow-list of `check_media_file` (utils.py lines 76-79). -/
def media_extensions : List String :=
  [".mp3", ".wav", ".m4a", ".aac", ".ogg", ".flac",
   ".mp4", ".mov", ".avi", ".mkv", ".webm"]

/-- `check_media_file` (utils.py lines 74-80): `path.suffix.lower()` must
be in the allow-list. -/
def check_media_file (path : String) : Bool :=
  media_extensions.contains (py_lower (path_suffix path))

/-- `handle_input_file` (utils.py lines 55-71).  `basePathSet` models the
truthiness of `os.environ.get("SPEECHLAB_MCP_BASE_PATH")`; the checks run
in source order and no network call is involved. -/
def handle_input_file (fs : FileSystem) (basePathSet : Bool)
    (file_path : String) (audio_content_check : Bool) : Except String String :=
  if !os_path_isabs file_path && !basePathSet then
    Except.error "File path must be an absolute path if SPEECHLAB_MCP_BASE_PATH is not set"
  else if !fs.pathExists file_path then
    Except.error "File does not exist"
  else if !fs.isFile file_path then
    Except.error "Path is not a file"
  else if audio_content_check && !check_media_file file_path then
    Except.error "File is not a recognized media file"
  else Except.ok file_path

/-- A file system containing only the relative regular file `song.mp3`. -/
def fsRelMedia : FileSystem :=
  { pathExists := fun s => s == "song.mp3"
    isFile := fun s => s == "song.mp3"
    accessW := fun _ => false }

/-- A file system containing only the absolute regular file `/a.mp3`. -/
def fsAbsMedia : FileSystem :=
  { pathExists := fun s => s == "/a.mp3"
    isFile := fun s => s == "/a.mp3"
    accessW := fun _ => false }

/-- A file system in which no path exists and none is writeable. -/
def fsEmpty : FileSystem :=
  { pathExists := fun _ => false
    isFile := fun _ => false
    accessW := fun _ => false }

/-! ### Poller lemmas -/

/-- Without a callback, an attempt returns `True` exactly when its fetch
succeeded with status `"COMPLETE"`. -/
lemma attemptStep_eq_some_true {fetch : Nat → Except Unit ProjectData}
    {i : Nat} :
    attemptStep fetch none i = some true ↔ statusAt fetch i = some "COMPLETE" := by
  unfold attemptStep statusAt cbRaises
  cases fetch i with
  | error e => simp
  | ok pd =>
    by_cases hc : pdStatus pd = "COMPLETE"
    · simp [hc]
    · by_cases hf : pdStatus pd = "FAILED" <;> simp [hc, hf]

/-- Without a callback, an attempt returns `False` exactly when its fetch
succeeded with status `"FAILED"`. -/
lemma attemptStep_eq_some_false {fetch : Nat → Except Unit ProjectData}
    {i : Nat} :
    attemptStep fetch none i = some false ↔ statusAt fetch i = some "FAILED" := by
  unfold attemptStep statusAt cbRaises
  cases fetch i with
  | error e => simp
  | ok pd =>
    by_cases hc : pdStatus pd = "COMPLETE"
    · simp [hc]
    · by_cases hf : pdStatus pd = "FAILED" <;> simp [hc, hf]

/-- Without a callback, an attempt falls through exactly when it did not
observe a terminal status. -/
lemma attemptStep_eq_none {fetch : Nat → Except Unit ProjectData}
    {i : Nat} :
    attemptStep fetch none i = none ↔
      statusAt fetch i ≠ some "COMPLETE" ∧ statusAt fetch i ≠ some "FAILED" := by
  unfold attemptStep statusAt cbRaises
  cases fetch i with
  | error e => simp
  | ok pd =>
    by_cases hc : pdStatus pd = "COMPLETE"
    · simp [hc]
    · by_cases hf : pdStatus pd = "FAILED" <;> simp [hc, hf]

/-- If the first `k` attempts starting at `i` fall through and attempt
`i + k` decides `b`, the loop from `i` returns `b` after exactly `k + 1`
fetches. -/
lemma pollAux_first_decided (fetch : Nat → Except Unit ProjectData)
    (cb : Option (Nat → ProjectData → Bool)) :
    ∀ (fuel i k : Nat) (b : Bool), k < fuel →
      (∀ j, j < k → attemptStep fetch cb (i + j) = none) →
      attemptStep fetch cb (i + k) = some b →
      pollAux fetch cb i fuel = (b, k + 1) := by
  intro fuel
  induction fuel with
  | zero => intro i k b hk; omega
  | succ n ih =>
    intro i k b hk hnone hstep
    cases k with
    | zero =>
      simp only [Nat.add_zero] at hstep
      simp [pollAux, hstep]
    | succ m =>
      have h0 : attemptStep fetch cb i = none := by
        have := hnone 0 (Nat.succ_pos m)
        simpa using this
      have hrec : pollAux fetch cb (i + 1) n = (b, m + 1) := by
        apply ih (i + 1) m b (by omega)
        · intro j hj
          have := hnone (j + 1) (by omega)
          simpa [Nat.add_assoc, Nat.add_comm 1 j] using this
        · have : i + 1 + m = i + (m + 1) := by omega
          rw [this]; exact hstep
      simp [pollAux, h0, hrec]

/-- If every attempt in range falls through, the loop returns `False`
after exactly `fuel` fetches. -/
lemma pollAux_all_none (fetch : Nat → Except Unit ProjectData)
    (cb : Option (Nat → ProjectData → Bool)) :
    ∀ (fuel i : Nat),
      (∀ j, j < fuel → attemptStep fetch cb (i + j) = none) →
      pollAux fetch cb i fuel = (false, fuel) := by
  intro fuel
  induction fuel with
  | zero => intro i h; simp [pollAux]
  | succ n ih =>
    intro i h
    have h0 : attemptStep fetch cb i = none := by
      have := h 0 (Nat.succ_pos n)
      simpa using this
    have hrec : pollAux fetch cb (i + 1) n = (false, n) := by
      apply ih
      intro j hj
      have := h (j + 1) (by omega)
      simpa [Nat.add_assoc, Nat.add_comm 1 j] using this
    simp [pollAux, h0, hrec]

/-- Runs whose attempts decide identically are identical. -/
lemma pollAux_congr (fetch fetch' : Nat → Except Unit ProjectData)
    (cb cb' : Option (Nat → ProjectData → Bool))
    (h : ∀ j, attemptStep fetch cb j = attemptStep fetch' cb' j) :
    ∀ (fuel i : Nat), pollAux fetch cb i fuel = pollAux fetch' cb' i fuel := by
  intro fuel
  induction fuel with
  | zero => intro i; simp [pollAux]
  | succ n ih =>
    intro i
    simp only [pollAux, h i, ih (i + 1)]

/-! ### Claim theorems about the poller -/

/-- C1: with no callback, `wait_for_completion` returns success at exactly
the first attempt whose fetched status is `"COMPLETE"` and failure at
exactly the first attempt whose fetched status is `"FAILED"`, performing
exactly `i + 1` status fetches — hence none after the terminal attempt. -/
theorem c1_first_terminal_attempt (N : Nat)
    (fetch : Nat → Except Unit ProjectData) (i : Nat) (hiN : i < N)
    (hpre : ∀ j, j < i →
      statusAt fetch j ≠ some "COMPLETE" ∧ statusAt fetch j ≠ some "FAILED") :
    (statusAt fetch i = some "COMPLETE" →
      waitForCompletion N fetch none = (true, i + 1)) ∧
    (statusAt fetch i = some "FAILED" →
      waitForCompletion N fetch none = (false, i + 1)) := by
  have hnone : ∀ j, j < i → attemptStep fetch none (0 + j) = none := by
    intro j hj
    rw [Nat.zero_add, attemptStep_eq_none]
    exact hpre j hj
  constructor
  · intro hc
    apply pollAux_first_decided fetch none N 0 i true hiN hnone
    rw [Nat.zero_add, attemptStep_eq_some_true]
    exact hc
  · intro hf
    apply pollAux_first_decided fetch none N 0 i false hiN hnone
    rw [Nat.zero_add, attemptStep_eq_some_false]
    exact hf

/-- Witness for C1: sequence [PROCESSING, COMPLETE] with budget 2 returns
success after exactly 2 fetches. -/
theorem c1_witness :
    waitForCompletion 2 fetchProcThenComplete none = (true, 2) := by
  have h := c1_first_terminal_attempt 2 fetchProcThenComplete 1 (by omega)
    (by intro j hj
        have hj0 : j = 0 := by omega
        subst hj0
        exact ⟨by decide, by decide⟩)
  exact h.1 (by decide)

/-- C2 (amended): if no attempt in the budget observes `"COMPLETE"` or
`"FAILED"`, the poller performs exactly `N` fetches and returns the
boolean `false` — the same return value `wait_for_completion` produces
when `"FAILED"` is observed, so the two outcomes are not distinguishable
by the caller. -/
theorem c2_timeout_exactly_n_fetches (N : Nat)
    (fetch : Nat → Except Unit ProjectData)
    (h : ∀ j, j < N →
      statusAt fetch j ≠ some "COMPLETE" ∧ statusAt fetch j ≠ some "FAILED") :
    waitForCompletion N fetch none = (false, N) := by
  unfold waitForCompletion
  apply pollAux_all_none
  intro j hj
  rw [Nat.zero_add, attemptStep_eq_none]
  exact h j hj

/-- Witness for C2: sequence [PROCESSING, PROCESSING] with budget 2
returns `(false, 2)`. -/
theorem c2_witness :
    waitForCompletion 2 fetchAlwaysProcessing none = (false, 2) :=
  c2_timeout_exactly_n_fetches 2 fetchAlwaysProcessing
    (fun j _ => by
      have h : statusAt fetchAlwaysProcessing j = some "PROCESSING" := rfl
      rw [h]
      exact ⟨by decide, by decide⟩)

/-- Counterexample for C2: a run that times out (every status
`"PROCESSING"`) and a run whose first status is `"FAILED"` return the
*identical* value `(false, 1)`, so the timeout outcome is not
distinguishable from the failed outcome. -/
theorem c2_counterexample :
    statusAt fetchAlwaysProcessing 0 = some "PROCESSING" ∧
    statusAt fetchAlwaysFailed 0 = some "FAILED" ∧
    waitForCompletion 1 fetchAlwaysProcessing none =
      waitForCompletion 1 fetchAlwaysFailed none := by
  refine ⟨by decide, by decide, by decide⟩

/-- C3: a transport error during attempt `i` is caught and the run is
exactly the run in which attempt `i` observed the non-terminal status
`"PROCESSING"`: one attempt is consumed and the loop continues. -/
theorem c3_transport_error_nonterminal (N : Nat)
    (fetch : Nat → Except Unit ProjectData) (i : Nat)
    (h : fetch i = .error ()) :
    waitForCompletion N fetch none =
      waitForCompletion N
        (fun j => if j = i then .ok processingPayload else fetch j) none := by
  unfold waitForCompletion
  apply pollAux_congr
  intro j
  by_cases hj : j = i
  · subst hj
    have l : attemptStep fetch none j = none := by
      simp [attemptStep, h]
    have r : attemptStep
        (fun k => if k = j then .ok processingPayload else fetch k) none j = none := by
      simp [attemptStep, cbRaises, pdStatus, processingPayload]
    rw [l, r]
  · unfold attemptStep
    simp [hj]

/-- Witness for C3: error on attempt 0 then COMPLETE, budget 2. -/
theorem c3_witness :
    waitForCompletion 2 fetchErrThenComplete none =
      waitForCompletion 2
        (fun j => if j = 0 then .ok processingPayload else fetchErrThenComplete j)
        none :=
  c3_transport_error_nonterminal 2 fetchErrThenComplete 0 rfl

/-- C4 (amended): an exception raised by the observer callback is caught
and not propagated, but it does alter control flow: the run is exactly the
run in which attempt `i`'s fetch raised a transport error — the terminal
check is skipped, the attempt is consumed as non-terminal and the loop
continues, so success is not returned on a `"COMPLETE"` attempt whose
callback raised. -/
theorem c4_callback_exception_skips_terminal_check (N : Nat)
    (fetch : Nat → Except Unit ProjectData)
    (cbf : Nat → ProjectData → Bool) (i : Nat) (pd : ProjectData)
    (hf : fetch i = .ok pd) (hr : cbf i pd = true) :
    waitForCompletion N fetch (some cbf) =
      waitForCompletion N
        (fun j => if j = i then .error () else fetch j) (some cbf) := by
  unfold waitForCompletion
  apply pollAux_congr
  intro j
  by_cases hj : j = i
  · subst hj
    have l : attemptStep fetch (some cbf) j = none := by
      simp [attemptStep, hf, cbRaises, hr]
    have r : attemptStep
        (fun k => if k = j then .error () else fetch k) (some cbf) j = none := by
      simp [attemptStep]
    rw [l, r]
  · unfold attemptStep
    simp [hj]

/-- Witness for C4's amended claim: callback raising on attempt 0 of an
all-COMPLETE sequence behaves like a transport error on attempt 0. -/
theorem c4_witness :
    waitForCompletion 2 fetchAlwaysComplete (some cbRaisesAtZero) =
      waitForCompletion 2
        (fun j => if j = 0 then .error () else fetchAlwaysComplete j)
        (some cbRaisesAtZero) :=
  c4_callback_exception_skips_terminal_check 2 fetchAlwaysComplete
    cbRaisesAtZero 0 completePayload rfl rfl

/-- Counterexample for C4: with budget 1, a `"COMPLETE"` status on attempt
0 and a callback that raises, the poller does *not* return success on that
attempt — it returns `(false, 1)`. -/
theorem c4_counterexample :
    statusAt fetchAlwaysComplete 0 = some "COMPLETE" ∧
    waitForCompletion 1 fetchAlwaysComplete (some cbAlwaysRaises) = (false, 1) ∧
    waitForCompletion 1 fetchAlwaysComplete (some cbAlwaysRaises) ≠ (true, 1) := by
  refine ⟨by decide, by decide, by decide⟩

/-- C9: a payload without a `job.status` field derives status
`"UNKNOWN"`, which is non-terminal: the attempt decides nothing (so it can
produce neither success nor immediate failure), consumes one attempt and
the loop continues with the next attempt. -/
theorem c9_missing_status_is_unknown_nonterminal
    (fetch : Nat → Except Unit ProjectData) (i fuel : Nat)
    (pd : ProjectData) (hf : fetch i = .ok pd)
    (hs : (pd.job.getD ⟨none⟩).status = none) :
    pdStatus pd = "UNKNOWN" ∧
    attemptStep fetch none i = none ∧
    pollAux fetch none i (fuel + 1) =
      ((pollAux fetch none (i + 1) fuel).1,
       (pollAux fetch none (i + 1) fuel).2 + 1) := by
  have hu : pdStatus pd = "UNKNOWN" := by
    unfold pdStatus
    rw [hs]
    rfl
  have hstep : attemptStep fetch none i = none := by
    simp [attemptStep, hf, cbRaises, hu]
  exact ⟨hu, hstep, by simp [pollAux, hstep]⟩

/-- Witness for C9: the payload `{}` (no `"job"` key) on attempt 0. -/
theorem c9_witness :
    pdStatus malformedPayload = "UNKNOWN" ∧
    attemptStep fetchMalformed none 0 = none ∧
    pollAux fetchMalformed none 0 1 =
      ((pollAux fetchMalformed none 1 0).1,
       (pollAux fetchMalformed none 1 0).2 + 1) :=
  c9_missing_status_is_unknown_nonterminal fetchMalformed 0 0
    malformedPayload rfl rfl

/-- C5 (amended): every code path that constructs a create-project
request for target code `"es"` carries `"es_la"` in both `targetLanguage`
and `dubAccent`; the target language reported back to the caller is taken
verbatim from the response's `targetLanguage` field, not restored to the
originally requested code. -/
theorem c5_es_mapped_in_both_paths (name source ts : String) :
    (server_create_request name source "es" ts).targetLanguage = "es_la" ∧
    (server_create_request name source "es" ts).dubAccent = "es_la" ∧
    (client_create_request name source "es" ts).targetLanguage = "es_la" ∧
    (client_create_request name source "es" ts).dubAccent = "es_la" ∧
    (∀ resp : CreateProjectResponse,
      server_reported_target_language resp = resp.targetLanguage ∧
      client_reported_target_language resp = resp.targetLanguage) :=
  ⟨rfl, rfl, rfl, rfl, fun _ => ⟨rfl, rfl⟩⟩

/-- Counterexample for C5: when the remote echoes the request (the
response's `targetLanguage` equals the request's), the target language
reported back for an original `"es"` request is `"es_la"`, not `"es"`. -/
theorem c5_counterexample :
    (server_create_request "p" "en" "es" "t").targetLanguage = "es_la" ∧
    server_reported_target_language
      (echoCreateResponse (server_create_request "p" "en" "es" "t")) = "es_la" ∧
    client_reported_target_language
      (echoCreateResponse (client_create_request "p" "en" "es" "t")) = "es_la" ∧
    ("es_la" : String) ≠ "es" :=
  ⟨rfl, rfl, rfl, by decide⟩

/-- If every translation of a prefix contributes no URL, the walk finds
the first URL of the remaining translations: a URL present only in a later
translation is located. -/
lemma findOutputUrl_append (ts1 ts2 : List Translation)
    (h : ∀ t ∈ ts1, translationOutputUrl t = none) :
    findOutputUrl (ts1 ++ ts2) = findOutputUrl ts2 := by
  induction ts1 with
  | nil => simp
  | cons t ts ih =>
    have ht : translationOutputUrl t = none := h t (List.mem_cons_self t ts)
    have hrest : ∀ t' ∈ ts, translationOutputUrl t' = none :=
      fun t' ht' => h t' (List.mem_cons_of_mem t ht')
    simp [findOutputUrl, List.findSome?, ht] at ih ⊢
    exact ih hrest

/-- C6 (amended): the walk selects the first OUTPUT media with a presigned
URL anywhere in `translations → dub → medias` (URLs only in later
translations are found); when the walk finds nothing, the MCP tool falls
back to the download endpoint only if the payload has at least one
translation (an empty `translations` list errors before the fallback),
while the client falls back unconditionally; when the fallback yields no
URL either, both report the descriptive error. -/
theorem c6_download_resolution (p : ProjectData) (ep : Option String) :
    (∀ u, findOutputUrl p.translations = some u →
      server_download_resolution p ep = .ok u ∧
      client_download_resolution p ep = .ok u) ∧
    (p.translations ≠ [] → findOutputUrl p.translations = none →
      server_download_resolution p ep =
        (match ep with
         | some u => .ok u
         | none => .error "No download URL available. The dubbing may not be complete.")) ∧
    (findOutputUrl p.translations = none →
      client_download_resolution p ep =
        (match ep with
         | some u => .ok u
         | none => .error "No download URL available. The dubbing may not be complete.")) ∧
    (∀ ts1 ts2, (∀ t ∈ ts1, translationOutputUrl t = none) →
      findOutputUrl (ts1 ++ ts2) = findOutputUrl ts2) := by
  refine ⟨?_, ?_, ?_, findOutputUrl_append⟩
  · intro u hu
    have hne : p.translations ≠ [] := by
      intro h
      rw [h] at hu
      simp [findOutputUrl] at hu
    constructor
    · unfold server_download_resolution
      rw [if_neg hne, hu]
    · unfold client_download_resolution
      rw [hu]
  · intro hne hnone
    unfold server_download_resolution
    rw [if_neg hne, hnone]
  · intro hnone
    unfold client_download_resolution
    rw [hnone]

/-- Witness for C6's amended claim: a payload whose qualifying OUTPUT
media sits only in the second translation resolves to that URL in both
code paths. -/
theorem c6_witness :
    server_download_resolution samplePayloadLater none = .ok "https://signed" ∧
    client_download_resolution samplePayloadLater none = .ok "https://signed" :=
  (c6_download_resolution samplePayloadLater none).1 "https://signed" rfl

/-- Counterexample for C6: a payload with no translations at all (so no
qualifying media exists anywhere) makes the MCP tool report "No
translations found" instead of falling back to the download endpoint,
even when that endpoint would supply a URL. -/
theorem c6_counterexample :
    server_download_resolution { job := none, translations := [] }
      (some "https://fallback") = .error "No translations found in the project." ∧
    (Except.error "No translations found in the project." : Except String String) ≠
      .ok "https://fallback" :=
  ⟨rfl, fun h => Except.noConfusion h⟩

/-- C7: for tool tag `"dub"` and identifying text `"abcdef123"` with
full-identifier mode off, the generated file name is
`"dub_abcde_" ++ timestamp ++ "." ++ extension` — it begins with
`"dub_abcde_"`, the first 5 characters of the text; with full-identifier
mode on, the entire text is used, spaces replaced by underscores. -/
theorem c7_output_file_naming (ts ext : String) :
    output_file_name "dub" "abcdef123" ext ts false =
      "dub_abcde_" ++ ts ++ "." ++ ext ∧
    (∀ text : String, output_file_name "dub" text ext ts true =
      "dub_" ++ py_replace_space text ++ "_" ++ ts ++ "." ++ ext) :=
  ⟨rfl, fun _ => rfl⟩

/-- C8 (amended): `handle_input_file` accepts a path if and only if the
path is absolute or `SPEECHLAB_MCP_BASE_PATH` is set, and the file exists,
is a regular file, and (when the media check is enabled) its lower-cased
extension is in the fixed allow-list; every other input yields a
validation error, with no network call involved. -/
theorem c8_handle_input_file_accepts_iff (fs : FileSystem)
    (basePathSet : Bool) (p : String) (check : Bool) :
    handle_input_file fs basePathSet p check = .ok p ↔
      ((os_path_isabs p = true ∨ basePathSet = true) ∧
       fs.pathExists p = true ∧ fs.isFile p = true ∧
       (check = true → check_media_file p = true)) := by
  unfold handle_input_file
  by_cases h1 : os_path_isabs p <;> by_cases h2 : basePathSet <;>
    by_cases h3 : fs.pathExists p <;> by_cases h4 : fs.isFile p <;>
    by_cases h5 : check <;> by_cases h6 : check_media_file p <;>
    simp [h1, h2, h3, h4, h5, h6]

/-- Witness for C8's amended claim: an existing absolute `.mp3` regular
file is accepted even with the environment base path unset. -/
theorem c8_witness :
    handle_input_file fsAbsMedia false "/a.mp3" true = .ok "/a.mp3" :=
  (c8_handle_input_file_accepts_iff fsAbsMedia false "/a.mp3" true).mpr
    ⟨Or.inl rfl, rfl, rfl, fun _ => by decide⟩

/-- Counterexample for C8: `song.mp3` exists, is a regular file and has an
allow-listed extension, yet with `SPEECHLAB_MCP_BASE_PATH` unset the
relative path is rejected before any other check. -/
theorem c8_counterexample :
    fsRelMedia.pathExists "song.mp3" = true ∧
    fsRelMedia.isFile "song.mp3" = true ∧
    check_media_file "song.mp3" = true ∧
    handle_input_file fsRelMedia false "song.mp3" true =
      .error "File path must be an absolute path if SPEECHLAB_MCP_BASE_PATH is not set" ∧
    handle_input_file fsRelMedia false "song.mp3" true ≠ .ok "song.mp3" := by
  refine ⟨rfl, rfl, by decide, rfl, ?_⟩
  intro h
  rw [show handle_input_file fsRelMedia false "song.mp3" true =
    Except.error "File path must be an absolute path if SPEECHLAB_MCP_BASE_PATH is not set"
    from rfl] at h
  exact Except.noConfusion h

/-- C10: when the resolved output directory does not exist and its parent
does not exist either (so `os.access` denies the parent),
`make_output_path` raises the not-writeable error instead of running the
recursive `mkdir`; and whenever `make_output_path` succeeds on a directory
that does not yet exist, that directory's immediate parent already exists
and is writable. -/
theorem c10_mkdir_requires_existing_parent (fs : FileSystem) (home : String)
    (od bp : Option String)
    (hacc : ∀ q, fs.pathExists q = false → fs.accessW q = false) :
    (fs.pathExists (resolve_output_path home od bp) = false →
     fs.pathExists (path_parent (resolve_output_path home od bp)) = false →
     make_output_path fs home od bp = .error "Directory is not writeable") ∧
    (∀ p, make_output_path fs home od bp = .ok p →
     fs.pathExists p = false →
     fs.pathExists (path_parent p) = true ∧ fs.accessW (path_parent p) = true) := by
  constructor
  · intro hne hnp
    have hw : is_file_writeable fs (resolve_output_path home od bp) = false := by
      unfold is_file_writeable
      rw [hne, hacc _ hnp]
      simp
    unfold make_output_path
    rw [hw]
    simp
  · intro p hok hne
    unfold make_output_path at hok
    by_cases hw : is_file_writeable fs (resolve_output_path home od bp) = true
    · rw [if_pos hw] at hok
      injection hok with hp
      subst hp
      unfold is_file_writeable at hw
      rw [hne] at hw
      simp only [Bool.false_eq_true, if_false] at hw
      refine ⟨?_, hw⟩
      by_cases hpe : fs.pathExists (path_parent (resolve_output_path home od bp)) = true
      · exact hpe
      · have hf := hacc (path_parent (resolve_output_path home od bp)) (by simpa using hpe)
        rw [hf] at hw
        exact absurd hw (by simp)
    · rw [if_neg hw] at hok
      exact Except.noConfusion hok

/-- Witness for C10: on an empty file system, requesting `/data/out`
(whose parent `/data` does not exist) yields the not-writeable error. -/
theorem c10_witness :
    make_output_path fsEmpty "/home/user" (some "/data/out") none =
      .error "Directory is not writeable" :=
  (c10_mkdir_requires_existing_parent fsEmpty "/home/user" (some "/data/out")
    none (fun _ _ => rfl)).1 rfl rfl

end SpeechlabMcp
